import Mathlib

/-!
Shallow embedding of the voice-agent search application.

Server side (`src/app/api/search/route.ts`): the `GET` route handler that
validates the `query` parameter, checks the `GOOGLE_API_KEY` / `GOOGLE_CSE_ID`
environment credentials, calls the Google Custom Search provider, maps the
provider items into normalized results and derives a narration summary via
`summarizeResults`.

Client side (the `Home` page component): the `handleSearch` submission
routine, the speech-recognition `onerror` / `onend` callbacks, and
`startListening`, each modelled as pure state transformers over the
component's React state, with network and speech effects supplied as
explicit outcome values.
-/

/-- Model of JavaScript `String.prototype.trim`: drop leading and trailing
whitespace characters. Defined structurally on the character list so that it
evaluates inside the kernel. -/
def jsTrim (s : String) : String :=
  String.mk (((s.data.dropWhile Char.isWhitespace).reverse.dropWhile
    Char.isWhitespace).reverse)

/-- The normalized search result shape (`SearchResult` in route.ts):
`displayLink` is an optional field. -/
structure SearchResult where
  title : String
  link : String
  snippet : String
  displayLink : Option String
  deriving DecidableEq, Repr

/-- One item of the provider payload (`GoogleSearchResponse.items` element). -/
structure GoogleItem where
  title : String
  link : String
  snippet : String
  displayLink : Option String
  deriving DecidableEq, Repr

/-- The `error` field of a non-success provider body, as seen by
`typeof payload.error === "string"`: a string value, a present value of some
other type, or absent (which also covers an unparseable body, since
`response.json().catch(() => ({}))` yields `{}` there). -/
inductive ErrorField where
  | absent : ErrorField
  | stringValue : String → ErrorField
  | nonStringValue : ErrorField
  deriving DecidableEq, Repr

/-- Outcome of the outbound provider call as observed by the route handler:
the fetch (or the success-body parse) throws, the provider answers with a
non-success HTTP status, or it answers successfully with an optional item
list (`payload.items`). -/
inductive ProviderOutcome where
  | transportFailure : ProviderOutcome
  | httpError : Nat → ErrorField → ProviderOutcome
  | success : Option (List GoogleItem) → ProviderOutcome
  deriving DecidableEq, Repr

/-- Body of a gateway JSON response: either `{ error: ... }` or
`{ results: ..., summary: ... }`. -/
inductive ResponseBody where
  | errorBody : String → ResponseBody
  | searchBody : List SearchResult → String → ResponseBody
  deriving DecidableEq, Repr

/-- An HTTP response produced by the route handler. -/
structure HttpResponse where
  status : Nat
  body : ResponseBody
  deriving DecidableEq, Repr

/-- The environment credentials read by the route module:
`process.env.GOOGLE_API_KEY` and `process.env.GOOGLE_CSE_ID`, each possibly
absent. -/
structure Env where
  googleApiKey : Option String
  googleCseId : Option String
  deriving DecidableEq, Repr

/-- Result of one gateway request, together with whether the outbound
provider call was issued and, when it was, the exact `q` parameter sent. -/
structure GatewayResult where
  response : HttpResponse
  providerCalled : Bool
  providerQuery : Option String
  deriving DecidableEq, Repr

/-- JavaScript falsiness of a `string | undefined` environment value
(`!GOOGLE_API_KEY`): true when the variable is absent or the empty string. -/
def isFalsy (v : Option String) : Bool :=
  match v with
  | none => true
  | some s => s = ""

/-- The route's query guard `!query || !query.trim()`: the parameter is
absent, empty, or blank after trimming. -/
def isBlankQuery (query : Option String) : Bool :=
  match query with
  | none => true
  | some q => q = "" || jsTrim q = ""

/-- The per-item mapping applied to provider items
(`(payload.items ?? []).map(...)` in route.ts): each field is copied
verbatim. -/
def mapItem (item : GoogleItem) : SearchResult :=
  { title := item.title, link := item.link, snippet := item.snippet,
    displayLink := item.displayLink }

/-- Message chosen for a provider-side failure:
`typeof payload.error === "string" ? payload.error : "Google Search API error"`. -/
def providerErrorMessage (e : ErrorField) : String :=
  match e with
  | .stringValue s => s
  | .absent => "Google Search API error"
  | .nonStringValue => "Google Search API error"

/-- The configuration error message returned when a credential is missing. -/
def configErrorMessage : String :=
  "Search service is not configured. Please add GOOGLE_API_KEY and GOOGLE_CSE_ID to the environment."

/-- `summarizeResults` from route.ts: the "could not find" sentence when the
result list is empty, else the prefix sentence followed by the
`"title. snippet"` fragments of the first `min(results.length, 3)` results
joined with single spaces. -/
def summarizeResults (query : String) (results : List SearchResult) : String :=
  if results.length = 0 then
    "I could not find any results for " ++ query ++ "."
  else
    let highlightCount := min results.length 3
    let highlights := String.intercalate " "
      ((results.take highlightCount).map (fun item => item.title ++ ". " ++ item.snippet))
    "Here is what I found for " ++ query ++ ". " ++ highlights

/-- The `GET` route handler of `src/app/api/search/route.ts`, as a pure
function of the environment, the raw `query` parameter, and the provider
outcome. The guards appear in source order: blank-query validation first,
then the credential check (both return without issuing the provider call),
then the provider call and its three outcome branches. -/
def GET (env : Env) (query : Option String) (provider : ProviderOutcome) :
    GatewayResult :=
  if isBlankQuery query then
    { response := { status := 400, body := .errorBody "Missing query" },
      providerCalled := false, providerQuery := none }
  else if isFalsy env.googleApiKey || isFalsy env.googleCseId then
    { response := { status := 500, body := .errorBody configErrorMessage },
      providerCalled := false, providerQuery := none }
  else
    let q := query.getD ""
    match provider with
    | .transportFailure =>
      { response := { status := 500, body := .errorBody "Search request failed" },
        providerCalled := true, providerQuery := some q }
    | .httpError status e =>
      { response := { status := status, body := .errorBody (providerErrorMessage e) },
        providerCalled := true, providerQuery := some q }
    | .success items =>
      let results := (items.getD []).map mapItem
      let body := ResponseBody.searchBody results (summarizeResults q results)
      { response := { status := 200, body := body },
        providerCalled := true, providerQuery := some q }

/-- The client-side result item shape (`SearchItem` in the page component). -/
structure SearchItem where
  title : String
  link : String
  snippet : String
  displayLink : Option String
  deriving DecidableEq, Repr

/-- The client status union `"idle" | "listening" | "searching" | "responding"`. -/
inductive AgentStatus where
  | idle : AgentStatus
  | listening : AgentStatus
  | searching : AgentStatus
  | responding : AgentStatus
  deriving DecidableEq, Repr

/-- The React state of the `Home` component that the modelled callbacks
read and write: `query`, `transcript`, `results`, `status`, `error`. -/
structure ClientState where
  query : String
  transcript : String
  results : List SearchItem
  status : AgentStatus
  error : Option String
  deriving DecidableEq, Repr

/-- Outcome of the client's `fetch` of `/api/search` inside `handleSearch`:
the fetch (or the success-body `json()`) throws with an `Error` carrying a
message, or with a non-`Error` value (`none`); the gateway answers non-ok
with an optional `error` string in the payload (`none` covers an absent
field or an unparseable body); or it answers ok with optional `results` and
`summary` fields. -/
inductive FetchOutcome where
  | fetchThrow : Option String → FetchOutcome
  | notOk : Option String → FetchOutcome
  | ok : Option (List SearchItem) → Option String → FetchOutcome
  deriving DecidableEq, Repr

/-- Whether a fetch outcome is one of the failure paths handled by the
`catch` block of `handleSearch`. -/
def FetchOutcome.isFailure : FetchOutcome → Bool
  | .fetchThrow _ => true
  | .notOk _ => true
  | .ok _ _ => false

/-- Generic message thrown when the non-ok payload has no usable `error`
field (`payload.error || "Search failed. Please try again."`). -/
def genericSearchFailure : String := "Search failed. Please try again."

/-- `handleSearch` from the page component, returning the final component
state together with the ordered list of values assigned to `status` during
the call (the `.ok` trace includes the deferred `setTimeout` transition back
to idle). A blank input sets the guard error and returns before any status
change or network call. On failure the `catch` block sets the error message
and goes straight to idle; the stored `results` are not touched. On success
`results` is set to `payload.results ?? []` and the status passes through
`responding` before the delayed return to idle. -/
def handleSearch (input : String) (st : ClientState) (outcome : FetchOutcome) :
    ClientState × List AgentStatus :=
  if jsTrim input = "" then
    ({ st with error := some "Please provide something to search for." }, [])
  else
    let st1 := { st with status := .searching, error := none }
    match outcome with
    | .fetchThrow msg =>
      let message := msg.getD "Unexpected error occurred."
      ({ st1 with error := some message, status := .idle },
       [.searching, .idle])
    | .notOk errorField =>
      let message :=
        match errorField with
        | some s => if s = "" then genericSearchFailure else s
        | none => genericSearchFailure
      ({ st1 with error := some message, status := .idle },
       [.searching, .idle])
    | .ok results _summary =>
      ({ st1 with results := results.getD [], status := .idle },
       [.searching, .responding, .idle])

/-- The recognition instance's `onerror` callback: `setStatus("idle")` and
nothing else — in particular the `error` message state is not written. -/
def onRecognitionError (st : ClientState) : ClientState :=
  { st with status := .idle }

/-- The recognition instance's `onend` callback:
`setStatus(prev => prev === "listening" ? "idle" : prev)`. -/
def onRecognitionEnd (st : ClientState) : ClientState :=
  if st.status = .listening then { st with status := .idle } else st

/-- `startListening` from the page component: no-op without a recognition
instance; otherwise clear the error and transcript, then either enter
`listening`, or — when `recognition.start()` throws — surface the
"Voice input failed to start" message and stay idle. -/
def startListening (st : ClientState) (hasRecognition startThrows : Bool) :
    ClientState :=
  if !hasRecognition then st
  else
    let st1 := { st with error := none, transcript := "" }
    if startThrows then
      let message := "Voice input failed to start. Please try again."
      { st1 with error := some message, status := .idle }
    else
      { st1 with status := .listening }

/-- The results section of the rendered page: the list when
`results.length > 0`, else the placeholder invitation. -/
inductive ResultsView where
  | placeholder : ResultsView
  | resultsList : List SearchItem → ResultsView
  deriving DecidableEq, Repr

/-- The `hasResults ? <ul>...</ul> : placeholder` branch of the render. -/
def renderResults (results : List SearchItem) : ResultsView :=
  if results.length > 0 then .resultsList results else .placeholder

/-! Sample concrete values used by witnesses. -/

/-- A concrete five-item provider payload (the spec's five-result scenario). -/
def sampleItems : List GoogleItem :=
  [{ title := "A", link := "a", snippet := "S", displayLink := none },
   { title := "B", link := "b", snippet := "T", displayLink := some "db" },
   { title := "C", link := "c", snippet := "U", displayLink := none },
   { title := "D", link := "d", snippet := "V", displayLink := none },
   { title := "E", link := "e", snippet := "W", displayLink := none }]

/-- A concrete environment with both credentials present. -/
def sampleEnv : Env := { googleApiKey := some "k", googleCseId := some "c" }

/-- A concrete client state holding one previously stored result. -/
def sampleClientState : ClientState :=
  { query := "news", transcript := "",
    results := [{ title := "A", link := "a", snippet := "S", displayLink := none }],
    status := AgentStatus.idle, error := none }

/-- A concrete client state currently in the listening status. -/
def listeningClientState : ClientState :=
  { query := "", transcript := "", results := [],
    status := AgentStatus.listening, error := none }

/-! Helper lemmas shared by the claim theorems. -/

/-- The narration is never the empty string: both branches of
summarizeResults start with a non-empty literal. -/
theorem summarizeResults_ne_empty (q : String) (rs : List SearchResult) :
    summarizeResults q rs ≠ "" := by
  unfold summarizeResults
  split
  · intro h
    have h2 := congrArg String.length h
    rw [String.length_append, String.length_append] at h2
    have h3 : 0 < "I could not find any results for ".length := by decide
    simp at h2
    omega
  · intro h
    have h2 := congrArg String.length h
    rw [String.length_append, String.length_append] at h2
    have h3 : 0 < "Here is what I found for ".length := by decide
    simp at h2
    omega

/-- On a non-empty result list the narration is the prefix sentence followed
by the fragments of the first min(3, length) results joined by spaces. -/
theorem summarizeResults_of_ne_nil (q : String) (rs : List SearchResult)
    (h : rs ≠ []) :
    summarizeResults q rs =
      "Here is what I found for " ++ q ++ ". " ++
        String.intercalate " "
          ((rs.take (min 3 rs.length)).map (fun r => r.title ++ ". " ++ r.snippet)) := by
  have hlen : ¬ rs.length = 0 := by simpa using h
  simp only [summarizeResults, if_neg hlen]
  rw [Nat.min_comm]

/-- Claim C1: for every non-blank query and non-empty result list, the
gateway's 200 response carries the summary equal to the prefix
"Here is what I found for {query}. " followed by the "{title}. {snippet}"
fragments of the first min(3, length) results in order joined by single
spaces, and the number of highlighted results equals min(3, length). -/
theorem spec_C1_summary_highlights (env : Env) (q : String)
    (items : List GoogleItem)
    (hq : isBlankQuery (some q) = false)
    (hkey : isFalsy env.googleApiKey = false)
    (hcse : isFalsy env.googleCseId = false)
    (hitems : items ≠ []) :
    (GET env (some q) (ProviderOutcome.success (some items))).response =
      { status := 200,
        body := ResponseBody.searchBody (items.map mapItem)
          ("Here is what I found for " ++ q ++ ". " ++
            String.intercalate " "
              (((items.map mapItem).take (min 3 (items.map mapItem).length)).map
                (fun r => r.title ++ ". " ++ r.snippet))) } ∧
    ((items.map mapItem).take (min 3 (items.map mapItem).length)).length =
      min 3 (items.map mapItem).length := by
  have hmap : items.map mapItem ≠ [] := by simpa using hitems
  constructor
  · simp only [GET, hq, hkey, hcse, Bool.false_eq_true, if_false, Bool.or_self,
      Option.getD_some]
    rw [summarizeResults_of_ne_nil _ _ hmap]
  · rw [List.length_take]
    omega

/-- Witness for C1 at the spec's five-result scenario. -/
theorem spec_C1_witness :
    isBlankQuery (some "weather") = false ∧
    isFalsy sampleEnv.googleApiKey = false ∧
    isFalsy sampleEnv.googleCseId = false ∧
    sampleItems ≠ [] ∧
    ((GET sampleEnv (some "weather")
        (ProviderOutcome.success (some sampleItems))).response =
      { status := 200,
        body := ResponseBody.searchBody (sampleItems.map mapItem)
          ("Here is what I found for " ++ "weather" ++ ". " ++
            String.intercalate " "
              (((sampleItems.map mapItem).take
                  (min 3 (sampleItems.map mapItem).length)).map
                (fun r => r.title ++ ". " ++ r.snippet))) } ∧
    ((sampleItems.map mapItem).take
        (min 3 (sampleItems.map mapItem).length)).length =
      min 3 (sampleItems.map mapItem).length) :=
  ⟨by decide, by decide, by decide, by decide,
   spec_C1_summary_highlights sampleEnv "weather" sampleItems
     (by decide) (by decide) (by decide) (by decide)⟩

/-- Claim C2: for every non-blank query whose provider response has zero
results (an empty or absent item list), the gateway's 200 response carries
exactly the sentence "I could not find any results for {query}." as the
summary, and the summary is a non-empty string for every successful
response. -/
theorem spec_C2_no_results_sentence (env : Env) (q : String)
    (items : Option (List GoogleItem))
    (hq : isBlankQuery (some q) = false)
    (hkey : isFalsy env.googleApiKey = false)
    (hcse : isFalsy env.googleCseId = false)
    (hempty : items.getD [] = []) :
    (GET env (some q) (ProviderOutcome.success items)).response =
      { status := 200,
        body := ResponseBody.searchBody []
          ("I could not find any results for " ++ q ++ ".") } ∧
    ∀ (q2 : String) (rs : List SearchResult), summarizeResults q2 rs ≠ "" := by
  refine ⟨?_, fun q2 rs => summarizeResults_ne_empty q2 rs⟩
  simp only [GET, hq, hkey, hcse, Bool.false_eq_true, if_false, Bool.or_self,
    Option.getD_some, hempty, List.map_nil]
  simp [summarizeResults]

/-- Witness for C2 at query "news" with an absent item list. -/
theorem spec_C2_witness :
    isBlankQuery (some "news") = false ∧
    isFalsy sampleEnv.googleApiKey = false ∧
    isFalsy sampleEnv.googleCseId = false ∧
    (Option.getD (α := List GoogleItem) none [] = []) ∧
    ((GET sampleEnv (some "news") (ProviderOutcome.success none)).response =
      { status := 200,
        body := ResponseBody.searchBody []
          ("I could not find any results for " ++ "news" ++ ".") } ∧
    ∀ (q2 : String) (rs : List SearchResult), summarizeResults q2 rs ≠ "") :=
  ⟨by decide, by decide, by decide, by decide,
   spec_C2_no_results_sentence sampleEnv "news" none
     (by decide) (by decide) (by decide) (by decide)⟩

/-- Claim C3, counterexample: with both credentials absent and an absent
query, the gateway returns the 400 "Missing query" response, not the 500
configuration error — the blank-query validation runs first, so the
configuration failure is not independent of the query's validity. -/
theorem spec_C3_counterexample :
    (GET { googleApiKey := none, googleCseId := none } none
        ProviderOutcome.transportFailure).response =
      { status := 400, body := ResponseBody.errorBody "Missing query" } ∧
    (GET { googleApiKey := none, googleCseId := none } none
        ProviderOutcome.transportFailure).response.status ≠ 500 := by
  refine ⟨rfl, ?_⟩
  decide

/-- Claim C3, amended: for every query that is non-blank after trimming, if
either required provider credential is absent (or empty) in the environment,
the gateway fails with the ConfigurationError response (HTTP 500 with the
"Search service is not configured" message) and no outbound provider call is
made; for a blank query the 400 validation error takes precedence. -/
theorem spec_C3_config_error_before_call (env : Env) (query : Option String)
    (provider : ProviderOutcome)
    (hq : isBlankQuery query = false)
    (hcred : isFalsy env.googleApiKey = true ∨ isFalsy env.googleCseId = true) :
    GET env query provider =
      { response := { status := 500, body := ResponseBody.errorBody configErrorMessage },
        providerCalled := false, providerQuery := none } := by
  rcases hcred with h | h <;>
    simp [GET, hq, h]

/-- Witness for the amended C3: valid query "news", API key absent. -/
theorem spec_C3_witness :
    isBlankQuery (some "news") = false ∧
    isFalsy (Env.googleApiKey { googleApiKey := none, googleCseId := some "c" }) = true ∧
    GET { googleApiKey := none, googleCseId := some "c" } (some "news")
        ProviderOutcome.transportFailure =
      { response := { status := 500, body := ResponseBody.errorBody configErrorMessage },
        providerCalled := false, providerQuery := none } :=
  ⟨by decide, by decide,
   spec_C3_config_error_before_call { googleApiKey := none, googleCseId := some "c" }
     (some "news") ProviderOutcome.transportFailure (by decide) (Or.inl (by decide))⟩

/-- Claim C4: for every request whose query parameter is absent or blank
after trimming, the gateway returns HTTP 400 with the "Missing query" error
body, makes no outbound provider call, and this holds for every environment
(configured or not) and every provider outcome. -/
theorem spec_C4_missing_query (env : Env) (query : Option String)
    (provider : ProviderOutcome)
    (hq : isBlankQuery query = true) :
    GET env query provider =
      { response := { status := 400, body := ResponseBody.errorBody "Missing query" },
        providerCalled := false, providerQuery := none } := by
  simp [GET, hq]

/-- Witness for C4 at a whitespace-only query with credentials configured. -/
theorem spec_C4_witness :
    isBlankQuery (some "   ") = true ∧
    GET sampleEnv (some "   ") (ProviderOutcome.success (some sampleItems)) =
      { response := { status := 400, body := ResponseBody.errorBody "Missing query" },
        providerCalled := false, providerQuery := none } :=
  ⟨by decide,
   spec_C4_missing_query sampleEnv (some "   ")
     (ProviderOutcome.success (some sampleItems)) (by decide)⟩

/-- Claim C5: on the success path the gateway's body holds exactly the
provider items mapped one-for-one by mapItem (so ordering is preserved and
nothing is deduplicated or filtered: the lengths agree), mapItem copies the
title, link, snippet and displayLink fields unmodified, and an absent item
list yields the empty result list. -/
theorem spec_C5_verbatim_mapping (env : Env) (q : String)
    (items : Option (List GoogleItem))
    (hq : isBlankQuery (some q) = false)
    (hkey : isFalsy env.googleApiKey = false)
    (hcse : isFalsy env.googleCseId = false) :
    (GET env (some q) (ProviderOutcome.success items)).response.body =
      ResponseBody.searchBody ((items.getD []).map mapItem)
        (summarizeResults q ((items.getD []).map mapItem)) ∧
    (∀ item : GoogleItem,
      (mapItem item).title = item.title ∧
      (mapItem item).link = item.link ∧
      (mapItem item).snippet = item.snippet ∧
      (mapItem item).displayLink = item.displayLink) ∧
    ((items.getD []).map mapItem).length = (items.getD []).length ∧
    (items = none → (items.getD []).map mapItem = []) := by
  refine ⟨?_, fun item => ⟨rfl, rfl, rfl, rfl⟩, List.length_map _ _, ?_⟩
  · simp [GET, hq, hkey, hcse]
  · intro h
    subst h
    rfl

/-- Witness for C5 at the five-item sample payload. -/
theorem spec_C5_witness :
    isBlankQuery (some "weather") = false ∧
    isFalsy sampleEnv.googleApiKey = false ∧
    isFalsy sampleEnv.googleCseId = false ∧
    ((GET sampleEnv (some "weather")
        (ProviderOutcome.success (some sampleItems))).response.body =
      ResponseBody.searchBody (((some sampleItems).getD []).map mapItem)
        (summarizeResults "weather" (((some sampleItems).getD []).map mapItem)) ∧
    (∀ item : GoogleItem,
      (mapItem item).title = item.title ∧
      (mapItem item).link = item.link ∧
      (mapItem item).snippet = item.snippet ∧
      (mapItem item).displayLink = item.displayLink) ∧
    (((some sampleItems).getD []).map mapItem).length =
      ((some sampleItems).getD []).length ∧
    (some sampleItems = none → ((some sampleItems).getD []).map mapItem = [])) :=
  ⟨by decide, by decide, by decide,
   spec_C5_verbatim_mapping sampleEnv "weather" (some sampleItems)
     (by decide) (by decide) (by decide)⟩

/-- Claim C6: for every non-success provider status, the gateway responds
with the same status code; the message is the provider's own error field
when that field is a string, and the generic "Google Search API error"
message when the field is absent (including an unparseable body) or not a
string. -/
theorem spec_C6_provider_error_forwarded (env : Env) (q : String)
    (status : Nat) (e : ErrorField)
    (hq : isBlankQuery (some q) = false)
    (hkey : isFalsy env.googleApiKey = false)
    (hcse : isFalsy env.googleCseId = false) :
    (GET env (some q) (ProviderOutcome.httpError status e)).response =
      { status := status, body := ResponseBody.errorBody (providerErrorMessage e) } ∧
    (∀ s : String, providerErrorMessage (ErrorField.stringValue s) = s) ∧
    providerErrorMessage ErrorField.absent = "Google Search API error" ∧
    providerErrorMessage ErrorField.nonStringValue = "Google Search API error" := by
  refine ⟨?_, fun s => rfl, rfl, rfl⟩
  simp [GET, hq, hkey, hcse]

/-- Witness for C6 at the spec scenario: provider answers 403 with error
"quota exceeded". -/
theorem spec_C6_witness :
    isBlankQuery (some "news") = false ∧
    isFalsy sampleEnv.googleApiKey = false ∧
    isFalsy sampleEnv.googleCseId = false ∧
    ((GET sampleEnv (some "news")
        (ProviderOutcome.httpError 403 (ErrorField.stringValue "quota exceeded"))).response =
      { status := 403, body := ResponseBody.errorBody
          (providerErrorMessage (ErrorField.stringValue "quota exceeded")) } ∧
    (∀ s : String, providerErrorMessage (ErrorField.stringValue s) = s) ∧
    providerErrorMessage ErrorField.absent = "Google Search API error" ∧
    providerErrorMessage ErrorField.nonStringValue = "Google Search API error") :=
  ⟨by decide, by decide, by decide,
   spec_C6_provider_error_forwarded sampleEnv "news" 403
     (ErrorField.stringValue "quota exceeded") (by decide) (by decide) (by decide)⟩

/-- Claim C7: for every client-side search failure (non-ok gateway response
or fetch/parse error) on a non-blank input, handleSearch sets an error
message, ends in the idle status, never assigns the responding status (the
status trace is exactly searching then idle), and leaves the stored result
list unchanged. -/
theorem spec_C7_failure_keeps_results (input : String) (st : ClientState)
    (outcome : FetchOutcome)
    (hin : ¬ jsTrim input = "")
    (hfail : outcome.isFailure = true) :
    (handleSearch input st outcome).1.status = AgentStatus.idle ∧
    (handleSearch input st outcome).1.error.isSome = true ∧
    (handleSearch input st outcome).1.results = st.results ∧
    (handleSearch input st outcome).2 =
      [AgentStatus.searching, AgentStatus.idle] ∧
    AgentStatus.responding ∉ (handleSearch input st outcome).2 := by
  cases outcome with
  | fetchThrow msg =>
    simp [handleSearch, hin]
  | notOk errorField =>
    cases errorField with
    | none => simp [handleSearch, hin]
    | some s => by_cases hs : s = "" <;> simp [handleSearch, hin, hs]
  | ok results summary =>
    simp [FetchOutcome.isFailure] at hfail

/-- Witness for C7: a 403-style gateway failure with one prior stored
result; the result list survives and the trace skips responding. -/
theorem spec_C7_witness :
    ¬ jsTrim "news" = "" ∧
    FetchOutcome.isFailure (FetchOutcome.notOk (some "quota exceeded")) = true ∧
    ((handleSearch "news" sampleClientState
        (FetchOutcome.notOk (some "quota exceeded"))).1.status = AgentStatus.idle ∧
    (handleSearch "news" sampleClientState
        (FetchOutcome.notOk (some "quota exceeded"))).1.error.isSome = true ∧
    (handleSearch "news" sampleClientState
        (FetchOutcome.notOk (some "quota exceeded"))).1.results =
      sampleClientState.results ∧
    (handleSearch "news" sampleClientState
        (FetchOutcome.notOk (some "quota exceeded"))).2 =
      [AgentStatus.searching, AgentStatus.idle] ∧
    AgentStatus.responding ∉
      (handleSearch "news" sampleClientState
        (FetchOutcome.notOk (some "quota exceeded"))).2) :=
  ⟨by decide, by decide,
   spec_C7_failure_keeps_results "news" sampleClientState
     (FetchOutcome.notOk (some "quota exceeded")) (by decide) (by decide)⟩

/-- Claim C8: for every query that is non-blank after trimming, the gateway
passes the query exactly as received (untrimmed) as the provider request's
q parameter, and interpolates the same untrimmed query into the narration
prefix, so leading or trailing whitespace survives into the narration. -/
theorem spec_C8_query_untrimmed (env : Env) (q : String)
    (items : List GoogleItem)
    (hq : isBlankQuery (some q) = false)
    (hkey : isFalsy env.googleApiKey = false)
    (hcse : isFalsy env.googleCseId = false)
    (hitems : items ≠ []) :
    (GET env (some q) (ProviderOutcome.success (some items))).providerQuery =
      some q ∧
    ∃ rest : String,
      (GET env (some q) (ProviderOutcome.success (some items))).response.body =
        ResponseBody.searchBody (items.map mapItem)
          ("Here is what I found for " ++ q ++ ". " ++ rest) := by
  have hmap : items.map mapItem ≠ [] := by simpa using hitems
  constructor
  · simp [GET, hq, hkey, hcse]
  · refine ⟨String.intercalate " "
      (((items.map mapItem).take (min 3 (items.map mapItem).length)).map
        (fun r => r.title ++ ". " ++ r.snippet)), ?_⟩
    simp only [GET, hq, hkey, hcse, Bool.false_eq_true, if_false, Bool.or_self,
      Option.getD_some]
    rw [summarizeResults_of_ne_nil _ _ hmap]

/-- Witness for C8 at the whitespace-padded query " weather ". -/
theorem spec_C8_witness :
    isBlankQuery (some " weather ") = false ∧
    sampleItems ≠ [] ∧
    ((GET sampleEnv (some " weather ")
        (ProviderOutcome.success (some sampleItems))).providerQuery =
      some " weather " ∧
    ∃ rest : String,
      (GET sampleEnv (some " weather ")
          (ProviderOutcome.success (some sampleItems))).response.body =
        ResponseBody.searchBody (sampleItems.map mapItem)
          ("Here is what I found for " ++ " weather " ++ ". " ++ rest)) :=
  ⟨by decide, by decide,
   spec_C8_query_untrimmed sampleEnv " weather " sampleItems
     (by decide) (by decide) (by decide) (by decide)⟩

/-- Claim C9: a speech-recognition error event received while the client is
listening moves the status to idle and leaves the error message state
unchanged; by contrast a capture start failure does set the "Voice input
failed to start" message. -/
theorem spec_C9_recognition_error_silent (st : ClientState)
    (_h : st.status = AgentStatus.listening) :
    (onRecognitionError st).status = AgentStatus.idle ∧
    (onRecognitionError st).error = st.error ∧
    ∀ st2 : ClientState, (startListening st2 true true).error =
      some "Voice input failed to start. Please try again." :=
  ⟨rfl, rfl, fun _ => rfl⟩

/-- Witness for C9 at a listening state with no error message set. -/
theorem spec_C9_witness :
    listeningClientState.status = AgentStatus.listening ∧
    ((onRecognitionError listeningClientState).status = AgentStatus.idle ∧
    (onRecognitionError listeningClientState).error = listeningClientState.error ∧
    ∀ st2 : ClientState, (startListening st2 true true).error =
      some "Voice input failed to start. Please try again.") :=
  ⟨by decide,
   spec_C9_recognition_error_silent listeningClientState (by decide)⟩

/-- Claim C10: a successful gateway response whose body lacks the results
field is coerced to the empty list before being stored, and rendering the
empty list yields the placeholder invitation rather than a failure on an
undefined list. -/
theorem spec_C10_absent_results_coerced (input : String) (st : ClientState)
    (summary : Option String)
    (hin : ¬ jsTrim input = "") :
    (handleSearch input st (FetchOutcome.ok none summary)).1.results = [] ∧
    renderResults (handleSearch input st (FetchOutcome.ok none summary)).1.results =
      ResultsView.placeholder := by
  simp [handleSearch, hin, renderResults]

/-- Witness for C10 at input "news" with a summary but no results field. -/
theorem spec_C10_witness :
    ¬ jsTrim "news" = "" ∧
    ((handleSearch "news" sampleClientState
        (FetchOutcome.ok none (some "All done."))).1.results = [] ∧
    renderResults (handleSearch "news" sampleClientState
        (FetchOutcome.ok none (some "All done."))).1.results =
      ResultsView.placeholder) :=
  ⟨by decide,
   spec_C10_absent_results_coerced "news" sampleClientState (some "All done.")
     (by decide)⟩
